import Mathlib

/-!
Verification development for the v3o generative-media UI.

The embedding below translates the orchestration logic of
`src/services/geminiService.ts`, the gallery dialog bundled in that file,
`src/components/ImageGenerationDialog.tsx` and the live-status dialog in
`src/unnamed/part_000` into Lean.  Network effects (submitting a request,
polling an operation, fetching an asset) are modelled by explicit
environments: a function giving the operation status observed at each
check, and a function giving the response of each HTTP fetch.  Promise
settlement is modelled by tagging each asynchronous call with the time at
which it settles and with its outcome.
-/

namespace V3O

/-- Modelled from the spec: `ImageFile` lives in the absent `types.ts`; the
spec's `ImageAsset` pairs a raw base64 encoding with a file-like handle, of
which the code uses the MIME type (`file.type`) and the name (`file.name`). -/
structure ImageFile where
  base64 : String
  fileType : String
  fileName : String
deriving DecidableEq, Repr

/-- The provider SDK's opaque `Video` handle; the code reads only its
optional `uri` field. -/
structure Video where
  uri : Option String
deriving DecidableEq, Repr

/-- Modelled from the spec: the generation-mode enum from the absent
`types.ts`, with the four modes the spec lists. -/
inductive GenerationMode where
  | TEXT_TO_VIDEO
  | FRAMES_TO_VIDEO
  | REFERENCES_TO_VIDEO
  | EXTEND_VIDEO
deriving DecidableEq, Repr

/-- Modelled from the spec: `GenerateVideoParams` from the absent
`types.ts`, with exactly the fields `generateVideo` reads. -/
structure GenerateVideoParams where
  mode : GenerationMode
  prompt : String
  aspectRatio : String
  resolution : String
  model : String
  startFrame : Option ImageFile
  endFrame : Option ImageFile
  isLooping : Bool
  referenceImages : Option (List ImageFile)
  styleImage : Option ImageFile
  inputVideoObject : Option Video
deriving DecidableEq, Repr

/-- The `{imageBytes, mimeType}` object built from an `ImageFile`. -/
structure ImagePayload where
  imageBytes : String
  mimeType : String
deriving DecidableEq, Repr

/-- The SDK's reference-image kind. -/
inductive ReferenceType where
  | ASSET
  | STYLE
deriving DecidableEq, Repr

/-- One entry of the `referenceImages` payload list. -/
structure ReferenceImagePayload where
  image : ImagePayload
  referenceType : ReferenceType
deriving DecidableEq, Repr

/-- The `config` object assembled by `generateVideo`. -/
structure VideoConfig where
  numberOfVideos : Nat := 1
  resolution : String
  aspectRatio : Option String := none
  lastFrame : Option ImagePayload := none
  referenceImages : Option (List ReferenceImagePayload) := none
deriving DecidableEq, Repr

/-- The `generateVideoPayload` object assembled by `generateVideo`. -/
structure GenerateVideoPayload where
  model : String
  config : VideoConfig
  prompt : Option String := none
  image : Option ImagePayload := none
  video : Option Video := none
deriving DecidableEq, Repr

/-- The object `{imageBytes: f.base64, mimeType: f.file.type}`. -/
def imagePayloadOf (f : ImageFile) : ImagePayload :=
  { imageBytes := f.base64, mimeType := f.fileType }

/-- The request-building phase of `generateVideo`
(src/services/geminiService.ts, lines 23-109): assemble `config` and
`generateVideoPayload`, branching on the mode; the only throw is the
missing input video for `EXTEND_VIDEO`. -/
def buildGenerateVideoPayload (params : GenerateVideoParams) :
    Except String GenerateVideoPayload :=
  let config0 : VideoConfig := { resolution := params.resolution }
  let config1 : VideoConfig :=
    if params.mode ≠ GenerationMode.EXTEND_VIDEO then
      { config0 with aspectRatio := some params.aspectRatio }
    else config0
  let payload0 : GenerateVideoPayload := { model := params.model, config := config1 }
  let payload1 : GenerateVideoPayload :=
    if params.prompt ≠ "" then { payload0 with prompt := some params.prompt }
    else payload0
  match params.mode with
  | GenerationMode.FRAMES_TO_VIDEO =>
    let payload2 : GenerateVideoPayload :=
      match params.startFrame with
      | some sf => { payload1 with image := some (imagePayloadOf sf) }
      | none => payload1
    let finalEndFrame : Option ImageFile :=
      if params.isLooping then params.startFrame else params.endFrame
    let payload3 : GenerateVideoPayload :=
      match finalEndFrame with
      | some f =>
        { payload2 with config := { payload2.config with lastFrame := some (imagePayloadOf f) } }
      | none => payload2
    Except.ok payload3
  | GenerationMode.REFERENCES_TO_VIDEO =>
    let refs0 : List ReferenceImagePayload :=
      (params.referenceImages.getD []).map
        (fun img => { image := imagePayloadOf img, referenceType := ReferenceType.ASSET })
    let refs1 : List ReferenceImagePayload :=
      match params.styleImage with
      | some s => refs0 ++ [{ image := imagePayloadOf s, referenceType := ReferenceType.STYLE }]
      | none => refs0
    let payload2 : GenerateVideoPayload :=
      if refs1.length > 0 then
        { payload1 with config := { payload1.config with referenceImages := some refs1 } }
      else payload1
    Except.ok payload2
  | GenerationMode.EXTEND_VIDEO =>
    match params.inputVideoObject with
    | some vid => Except.ok { payload1 with video := some vid }
    | none => Except.error "An input video object is required to extend a video."
  | GenerationMode.TEXT_TO_VIDEO => Except.ok payload1

/-- One generated-video entry of the operation response; the code reads
`firstVideo?.video?.uri`, so the inner handle is optional. -/
structure GeneratedVideo where
  video : Option Video
deriving DecidableEq, Repr

/-- The response payload carried by a completed operation. -/
structure OperationResponse where
  generatedVideos : Option (List GeneratedVideo)
deriving DecidableEq, Repr

/-- The provider's long-running operation handle as the code observes it:
a completion flag and, possibly, a response payload. -/
structure Operation where
  done : Bool
  response : Option OperationResponse
deriving DecidableEq, Repr

/-- An HTTP response as the asset fetch observes it: status code, reason
text and body (a blob, modelled as a string). -/
structure FetchRes where
  status : Nat
  statusText : String
  blob : String
deriving DecidableEq, Repr

/-- The browser's `Response.ok`: status in the 2xx range. -/
def FetchRes.ok (r : FetchRes) : Bool :=
  200 ≤ r.status && r.status ≤ 299

/-- Environment for the asset-fetch phase: the API credential, the HTTP
fetch, and the browser builtins `decodeURIComponent` and
`URL.createObjectURL`. -/
structure FetchEnv where
  apiKey : String
  fetch : String → FetchRes
  decodeURIComponent : String → String
  createObjectURL : String → String

/-- The record `generateVideo` resolves with on success. -/
structure VideoSuccess where
  objectUrl : String
  blob : String
  uri : String
  video : Video
deriving DecidableEq, Repr

/-- Observable effects of one `generateVideo` run: `checks` counts status
observations (the submission result plus each poll re-fetch), `waitMs`
the total time slept in the poll loop, `assetFetches` the asset HTTP
requests issued. -/
structure Trace where
  checks : Nat
  waitMs : Nat
  assetFetches : Nat
deriving DecidableEq, Repr

/-- The post-loop phase of `generateVideo`
(src/services/geminiService.ts, lines 121-151): validate the response,
extract the first video's URI, fetch the asset and build the success
record; paired with the number of asset fetches performed. -/
def extractVideo (fe : FetchEnv) (operation : Operation) :
    Except String VideoSuccess × Nat :=
  match operation.response with
  | none => (Except.error "No videos generated.", 0)
  | some resp =>
    match resp.generatedVideos with
    | none => (Except.error "No videos were generated.", 0)
    | some [] => (Except.error "No videos were generated.", 0)
    | some (firstVideo :: _) =>
      match firstVideo.video with
      | none => (Except.error "Generated video is missing a URI.", 0)
      | some v =>
        match v.uri with
        | none => (Except.error "Generated video is missing a URI.", 0)
        | some uri =>
          let url := fe.decodeURIComponent uri
          let res := fe.fetch (url ++ "&key=" ++ fe.apiKey)
          if res.ok then
            (Except.ok { objectUrl := fe.createObjectURL res.blob,
                         blob := res.blob, uri := url, video := v }, 1)
          else
            (Except.error ("Failed to fetch video: " ++ toString res.status
               ++ " " ++ res.statusText), 1)

/-- The poll loop (src/services/geminiService.ts, lines 115-119) over the
trace `ops` of observed operation states: `ops 0` is the submission
result, `ops (k+1)` the k-th re-fetch.  Returns the index of the first
state whose `done` flag is set, or `none` if `fuel` checks did not reach
one (the source loop is unbounded). -/
def pollOps (ops : Nat → Operation) : Nat → Nat → Option Nat
  | 0, _ => none
  | fuel + 1, i => if (ops i).done then some i else pollOps ops fuel (i + 1)

/-- The whole of `generateVideo` over an environment: build the payload
(failing before any network call on a build error), submit and poll the
operation trace for that payload, sleeping 10000 ms before each re-fetch,
then extract and fetch the resulting asset.  `none` means `fuel` checks
were not enough to observe completion. -/
def generateVideoRun (ops : GenerateVideoPayload → Nat → Operation)
    (fe : FetchEnv) (fuel : Nat) (params : GenerateVideoParams) :
    Option (Except String VideoSuccess × Trace) :=
  match buildGenerateVideoPayload params with
  | Except.error e => some (Except.error e, ⟨0, 0, 0⟩)
  | Except.ok payload =>
    match pollOps (ops payload) fuel 0 with
    | none => none
    | some i =>
      let ex := extractVideo fe (ops payload i)
      some (ex.1, ⟨i + 1, 10000 * i, ex.2⟩)

/-- A JavaScript thrown value as the catch handlers discriminate it:
either an `Error` instance carrying a message, or any other thrown
value, which carries no message. -/
inductive JsThrown where
  | errorInstance (message : String)
  | nonError
deriving DecidableEq, Repr

/-- The expression `err instanceof Error ? err.message : 'An unknown error occurred.'`
(src/unnamed/part_000, line 97). -/
def messageOf : JsThrown → String
  | JsThrown.errorInstance m => m
  | JsThrown.nonError => "An unknown error occurred."

instance {ε α : Type} [DecidableEq ε] [DecidableEq α] : DecidableEq (Except ε α)
  | Except.ok a, Except.ok b =>
    if h : a = b then isTrue (by rw [h]) else isFalse (by simp [h])
  | Except.ok _, Except.error _ => isFalse (by simp)
  | Except.error _, Except.ok _ => isFalse (by simp)
  | Except.error e, Except.error f =>
    if h : e = f then isTrue (by rw [h]) else isFalse (by simp [h])

/-- One part of a `generateContent` response candidate; the code reads
only its optional `inlineData.data` base64 payload. -/
structure Part where
  inlineData : Option String
deriving DecidableEq, Repr

/-- Environment for one fan-out `generateContent` call: the time at which
the call settles and its outcome — the response's parts, or the thrown
value if the call rejected. -/
structure GenCall where
  time : Nat
  response : Except JsThrown (List Part)
deriving DecidableEq, Repr

/-- A settled derived promise of the fan-out: settle time plus either the
produced `ImageFile` or the thrown value. -/
structure SettledCall where
  time : Nat
  outcome : Except JsThrown ImageFile
deriving DecidableEq, Repr

/-- The helper `base64ToImageFile`: wrap the base64 payload as a PNG file named
`generated-image-<index>.png`. -/
def base64ToImageFile (base64 : String) (index : Nat) : ImageFile :=
  { base64 := base64, fileType := "image/png",
    fileName := "generated-image-" ++ toString index ++ ".png" }

/-- The loop `for (const part of parts) if (part.inlineData) ...`: the
first part carrying inline data, if any. -/
def firstInline : List Part → Option String
  | [] => none
  | p :: ps =>
    match p.inlineData with
    | some d => some d
    | none => firstInline ps

/-- The `.then` chain of one call of the simple variant `generateImages`
(src/services/geminiService.ts, lines 175-195): on a response, return the
image file built from the first inline-data part, or throw the
per-index failure `Error`; a rejected call keeps its thrown value. -/
def callOutcome (index : Nat) (c : GenCall) : SettledCall :=
  { time := c.time,
    outcome :=
      match c.response with
      | Except.error e => Except.error e
      | Except.ok parts =>
        match firstInline parts with
        | some b64 => Except.ok (base64ToImageFile b64 index)
        | none =>
          Except.error (JsThrown.errorInstance
            ("Image generation failed for image " ++ toString (index + 1)
              ++ ". No image data returned.")) }

/-- The settle time of `Promise.allSettled` (and of `Promise.all` when
nothing rejects): the batch finishes once the last call has settled. -/
def allSettleTime (calls : List SettledCall) : Nat :=
  (calls.map (fun c => c.time)).foldr max 0

/-- The rejected calls of a batch, as (settle time, thrown value) pairs. -/
def rejections (calls : List SettledCall) : List (Nat × JsThrown) :=
  calls.filterMap (fun c =>
    match c.outcome with
    | Except.error e => some (c.time, e)
    | Except.ok _ => none)

/-- The rejection that settles first (earlier index on equal times). -/
def earliestRejection : List (Nat × JsThrown) → Option (Nat × JsThrown)
  | [] => none
  | x :: xs =>
    match earliestRejection xs with
    | none => some x
    | some y => if y.1 < x.1 then some y else some x

/-- The values the fulfilled calls of a batch produced, in slot order. -/
def successAssets (calls : List SettledCall) : List ImageFile :=
  calls.filterMap (fun c => c.outcome.toOption)

/-- Semantics of `Promise.all` over a batch of settled calls: if any call rejects, the
aggregate rejects with the earliest rejection at that rejection's settle
time; otherwise it fulfills with every value once the last call settles. -/
def promiseAll (calls : List SettledCall) :
    Nat × Except JsThrown (List ImageFile) :=
  match earliestRejection (rejections calls) with
  | some (t, e) => (t, Except.error e)
  | none => (allSettleTime calls, Except.ok (successAssets calls))

/-- The derived promises of the simple variant `generateImages`: call
`i`'s `.then` chain applied to its environment. -/
def settledCallsOf (env : List GenCall) : List SettledCall :=
  env.enum.map (fun p => callOutcome p.1 p.2)

/-- The simple variant `generateImages` (src/services/geminiService.ts, lines 166-201) over
its call environment: `await Promise.all(imagePromises)` — the settle
time of the aggregate and its outcome. -/
def generateImagesRun (env : List GenCall) :
    Nat × Except JsThrown (List ImageFile) :=
  promiseAll (settledCallsOf env)

/-- Per-slot state of the live-status dialog (src/unnamed/part_000,
lines 25-29): pending, success with the produced file, or error with a
message. -/
inductive GenerationResult where
  | pending
  | success (data : ImageFile)
  | error (error : String)
deriving DecidableEq, Repr

/-- What a slot's callbacks record for a settled call: the success
handler stores the file, the catch handler stores
`err instanceof Error ? err.message : 'An unknown error occurred.'`. -/
def resultOfOutcome : Except JsThrown ImageFile → GenerationResult
  | Except.ok f => GenerationResult.success f
  | Except.error e => GenerationResult.error (messageOf e)

/-- The `.then` chain of one call of the live-status variant
(src/unnamed/part_000, lines 70-95): the image file built from the first
inline-data part, else the thrown `Error('No image data returned.')`;
a rejected call keeps its thrown value. -/
def liveCallOutcome (index : Nat) (c : GenCall) : SettledCall :=
  { time := c.time,
    outcome :=
      match c.response with
      | Except.error e => Except.error e
      | Except.ok parts =>
        match firstInline parts with
        | some b64 => Except.ok (base64ToImageFile b64 index)
        | none => Except.error (JsThrown.errorInstance "No image data returned.") }

/-- The derived promises of the live-status variant: call `i`'s `.then`
chain applied to its environment. -/
def liveSettledCallsOf (env : List GenCall) : List SettledCall :=
  env.enum.map (fun p => liveCallOutcome p.1 p.2)

/-- Replay the slot callbacks of the live-status fan-out
(src/unnamed/part_000, lines 86-102) in the order the calls settled:
each settling call `i` overwrites exactly slot `i` of the status array
(`newResults[i] = ...`) with its success or error record. -/
def runCallbacks (calls : List SettledCall) (order : List Nat)
    (init : List GenerationResult) : List GenerationResult :=
  order.foldl (fun st i =>
    match calls[i]? with
    | some c => st.set i (resultOfOutcome c.outcome)
    | none => st) init

/-- The status array after `await Promise.allSettled(imagePromises)`:
all callbacks, in settlement order, applied to the initial all-pending
array of length N. -/
def handleGenerateFinal (calls : List SettledCall) (order : List Nat) :
    List GenerationResult :=
  runCallbacks calls order (List.replicate calls.length GenerationResult.pending)

/-- The handler `handleGenerate` of the live-status dialog (src/unnamed/part_000,
lines 52-111): an untrimmed-empty prompt yields the single validation
error without any call; otherwise the N fan-out calls settle in `order`
and each records its slot. -/
def handleGenerateRun (prompt : String) (env : List GenCall)
    (order : List Nat) : List GenerationResult :=
  if prompt.trim = "" then
    [GenerationResult.error "Please enter a prompt to generate images."]
  else
    handleGenerateFinal (liveSettledCallsOf env) order

/-- The function `toggleSelection` of the plain galleries
(src/services/geminiService.ts, gallery dialog, lines 225-236, and
src/components/ImageGenerationDialog.tsx, lines 60-71): deselect a
selected index, append an unselected one while below the maximum, and
otherwise leave the selection unchanged. -/
def toggleSelection (maxSelectable : Nat) (prev : List Nat) (index : Nat) :
    List Nat :=
  if prev.contains index then prev.filter (fun i => i != index)
  else if prev.length < maxSelectable then prev ++ [index]
  else prev

/-- The `status === 'success'` test on one `GenerationResult`. -/
def isSuccess : GenerationResult → Bool
  | GenerationResult.success _ => true
  | _ => false

/-- The count `generationResults.filter(r => r.status === 'success').length`. -/
def successCount (results : List GenerationResult) : Nat :=
  (results.filter isSuccess).length

/-- The guard `generationResults[index]?.status === 'success'` — false when the
index is out of bounds. -/
def isSuccessAt (results : List GenerationResult) (index : Nat) : Bool :=
  match results[index]? with
  | some r => isSuccess r
  | none => false

/-- The function `toggleSelection` of the live-status dialog (src/unnamed/part_000,
lines 113-128): ignore slots that are not successes, deselect a selected
index, and append an unselected one only below
`min(maxImagesToAdd, successfulImagesCount)`. -/
def toggleSelectionLive (results : List GenerationResult)
    (maxImagesToAdd : Nat) (prev : List Nat) (index : Nat) : List Nat :=
  if !(isSuccessAt results index) then prev
  else if prev.contains index then prev.filter (fun i => i != index)
  else
    let maxCanSelect := min maxImagesToAdd (successCount results)
    if prev.length < maxCanSelect then prev ++ [index]
    else prev

/-- Invariant of the live-status dialog's selection: every selected index
denotes a success slot, and no more indices are selected than both the
configured maximum and the number of success slots allow. -/
def SelInvariant (results : List GenerationResult) (maxImagesToAdd : Nat)
    (sel : List Nat) : Prop :=
  (∀ i ∈ sel, isSuccessAt results i = true) ∧
  sel.length ≤ min maxImagesToAdd (successCount results)

/-- C3: a request in EXTEND_VIDEO mode with no source video handle makes
`generateVideo` fail with the validation error before any network call:
no status check, no wait and no asset fetch happens. -/
theorem extendWithoutVideoFailsBeforeNetwork
    (ops : GenerateVideoPayload → Nat → Operation) (fe : FetchEnv)
    (fuel : Nat) (params : GenerateVideoParams)
    (hmode : params.mode = GenerationMode.EXTEND_VIDEO)
    (hvid : params.inputVideoObject = none) :
    generateVideoRun ops fe fuel params =
      some (Except.error "An input video object is required to extend a video.",
        ⟨0, 0, 0⟩) := by
  simp [generateVideoRun, buildGenerateVideoPayload, hmode, hvid]

/-- C8: in the gallery selection dialog, selecting a fresh item at the
maximum is a no-op, deselecting a selected item always removes it and
strictly shrinks the selection, and below the maximum a fresh selection
succeeds. -/
theorem gallerySelectionCap (maxSelectable : Nat) (prev : List Nat)
    (index : Nat) :
    (prev.length = maxSelectable → index ∉ prev →
      toggleSelection maxSelectable prev index = prev) ∧
    (index ∈ prev →
      toggleSelection maxSelectable prev index =
        prev.filter (fun i => i != index) ∧
      index ∉ toggleSelection maxSelectable prev index) ∧
    (index ∈ prev →
      (toggleSelection maxSelectable prev index).length < prev.length) ∧
    (prev.length < maxSelectable → index ∉ prev →
      toggleSelection maxSelectable prev index = prev ++ [index]) := by
  refine ⟨?_, ?_, ?_, ?_⟩
  · intro hlen hmem
    simp [toggleSelection, hmem, hlen]
  · intro hmem
    exact ⟨by simp [toggleSelection, hmem], by simp [toggleSelection, hmem]⟩
  · intro hmem
    have heq : toggleSelection maxSelectable prev index =
        prev.filter (fun i => i != index) := by
      simp [toggleSelection, hmem]
    rw [heq, List.length_filter_lt_length_iff_exists]
    exact ⟨index, hmem, by simp⟩
  · intro hlen hmem
    simp [toggleSelection, hmem, hlen]

/-- C10: in the live-status dialog, toggling a slot that is not a success
leaves the selection unchanged, and one toggle step preserves the
invariant that every selected index is a success slot and that the
selection count stays within both the configured maximum and the number
of success slots. -/
theorem liveSelectionInvariant (results : List GenerationResult)
    (maxImagesToAdd : Nat) (prev : List Nat) (index : Nat) :
    (isSuccessAt results index = false →
      toggleSelectionLive results maxImagesToAdd prev index = prev) ∧
    (SelInvariant results maxImagesToAdd prev →
      SelInvariant results maxImagesToAdd
        (toggleSelectionLive results maxImagesToAdd prev index)) := by
  constructor
  · intro hfail
    simp [toggleSelectionLive, hfail]
  · rintro ⟨hmem, hlen⟩
    by_cases hsucc : isSuccessAt results index = true
    · by_cases hin : index ∈ prev
      · have heq : toggleSelectionLive results maxImagesToAdd prev index =
            prev.filter (fun i => i != index) := by
          simp [toggleSelectionLive, hsucc, hin]
        rw [heq]
        refine ⟨?_, le_trans (List.length_filter_le _ _) hlen⟩
        intro i hi
        exact hmem i (List.mem_of_mem_filter hi)
      · by_cases hcap : prev.length < min maxImagesToAdd (successCount results)
        · have heq : toggleSelectionLive results maxImagesToAdd prev index =
              prev ++ [index] := by
            simp [toggleSelectionLive, hsucc, hin, hcap]
          rw [heq]
          refine ⟨?_, ?_⟩
          · intro i hi
            rcases List.mem_append.mp hi with h | h
            · exact hmem i h
            · simp only [List.mem_singleton] at h
              rw [h]
              exact hsucc
          · simpa using Nat.succ_le_of_lt hcap
        · have heq : toggleSelectionLive results maxImagesToAdd prev index =
              prev := by
            simp [toggleSelectionLive, hsucc, hin, hcap]
          rw [heq]
          exact ⟨hmem, hlen⟩
    · have heq : toggleSelectionLive results maxImagesToAdd prev index =
          prev := by
        simp [toggleSelectionLive, eq_false_of_ne_true hsucc]
      rw [heq]
      exact ⟨hmem, hlen⟩

/-- Auxiliary: in every successfully built payload the aspect-ratio field
is exactly determined by whether the mode is EXTEND_VIDEO. -/
theorem build_aspectRatio (params : GenerateVideoParams)
    (payload : GenerateVideoPayload)
    (hok : buildGenerateVideoPayload params = Except.ok payload) :
    payload.config.aspectRatio =
      if params.mode ≠ GenerationMode.EXTEND_VIDEO then some params.aspectRatio
      else none := by
  unfold buildGenerateVideoPayload at hok
  cases hm : params.mode <;> simp only [hm] at hok <;>
    (repeat' split at hok) <;>
    (first | (simp only [Except.ok.injEq] at hok; subst hok; rfl) | simp_all)

/-- C7: the built request carries no aspect ratio in EXTEND_VIDEO mode
and carries the supplied aspect ratio in each of the other three modes. -/
theorem aspectRatioByMode (params : GenerateVideoParams)
    (payload : GenerateVideoPayload)
    (hok : buildGenerateVideoPayload params = Except.ok payload) :
    (params.mode = GenerationMode.EXTEND_VIDEO →
      payload.config.aspectRatio = none) ∧
    (params.mode ≠ GenerationMode.EXTEND_VIDEO →
      payload.config.aspectRatio = some params.aspectRatio) := by
  have h := build_aspectRatio params payload hok
  constructor
  · intro hm
    rw [h]
    simp [hm]
  · intro hm
    rw [h]
    simp [hm]

/-- C6: for FRAMES_TO_VIDEO, with the looping flag set, a start frame
present and no explicit end frame, the built request's `lastFrame` equals
the start frame's image payload; with the flag unset, `lastFrame` is the
explicit end frame's payload when present and absent otherwise. -/
theorem framesLastFrame (params : GenerateVideoParams)
    (payload : GenerateVideoPayload)
    (hmode : params.mode = GenerationMode.FRAMES_TO_VIDEO)
    (hok : buildGenerateVideoPayload params = Except.ok payload) :
    (∀ sf, params.isLooping = true → params.startFrame = some sf →
      params.endFrame = none →
      payload.config.lastFrame = some (imagePayloadOf sf)) ∧
    (params.isLooping = false →
      payload.config.lastFrame = Option.map imagePayloadOf params.endFrame) := by
  unfold buildGenerateVideoPayload at hok
  simp only [hmode] at hok
  constructor
  · intro sf hloop hsf _
    simp only [hloop, hsf, if_true] at hok
    (repeat' split at hok) <;>
      (first | (simp only [Except.ok.injEq] at hok; subst hok; rfl) | simp_all)
  · intro hloop
    simp only [hloop] at hok
    cases hef : params.endFrame <;> simp only [hef] at hok ⊢ <;>
      (repeat' split at hok) <;>
      (first
        | (simp only [Except.ok.injEq] at hok; subst hok; simp_all)
        | simp_all)

/-- C5: once the operation is complete, success requires a non-empty
result list whose first element has a URI; a missing response, a missing
or empty result list, a missing URI, and a non-2xx asset fetch each
produce their corresponding fatal error, the last one naming the status
code and reason text. -/
theorem terminalValidationAndFetch (fe : FetchEnv) (operation : Operation) :
    (∀ s n, extractVideo fe operation = (Except.ok s, n) →
      ∃ resp firstVideo rest v uri, operation.response = some resp ∧
        resp.generatedVideos = some (firstVideo :: rest) ∧
        firstVideo.video = some v ∧ v.uri = some uri) ∧
    (operation.response = none →
      extractVideo fe operation = (Except.error "No videos generated.", 0)) ∧
    (∀ resp, operation.response = some resp →
      (resp.generatedVideos = none ∨ resp.generatedVideos = some []) →
      extractVideo fe operation =
        (Except.error "No videos were generated.", 0)) ∧
    (∀ resp firstVideo rest, operation.response = some resp →
      resp.generatedVideos = some (firstVideo :: rest) →
      (firstVideo.video = none ∨ ∃ v, firstVideo.video = some v ∧ v.uri = none) →
      extractVideo fe operation =
        (Except.error "Generated video is missing a URI.", 0)) ∧
    (∀ resp firstVideo rest v uri, operation.response = some resp →
      resp.generatedVideos = some (firstVideo :: rest) →
      firstVideo.video = some v → v.uri = some uri →
      (fe.fetch (fe.decodeURIComponent uri ++ "&key=" ++ fe.apiKey)).ok = false →
      extractVideo fe operation =
        (Except.error ("Failed to fetch video: "
          ++ toString (fe.fetch (fe.decodeURIComponent uri ++ "&key=" ++ fe.apiKey)).status
          ++ " "
          ++ (fe.fetch (fe.decodeURIComponent uri ++ "&key=" ++ fe.apiKey)).statusText),
          1)) := by
  refine ⟨?_, ?_, ?_, ?_, ?_⟩
  · intro s n h
    cases hresp : operation.response with
    | none => simp [extractVideo, hresp] at h
    | some resp =>
      cases hgv : resp.generatedVideos with
      | none => simp [extractVideo, hresp, hgv] at h
      | some l =>
        cases l with
        | nil => simp [extractVideo, hresp, hgv] at h
        | cons firstVideo rest =>
          cases hfv : firstVideo.video with
          | none => simp [extractVideo, hresp, hgv, hfv] at h
          | some v =>
            cases huri : v.uri with
            | none => simp [extractVideo, hresp, hgv, hfv, huri] at h
            | some uri =>
              refine ⟨resp, firstVideo, rest, v, uri, ?_, ?_, ?_, ?_⟩ <;> simp_all
  · intro h
    simp [extractVideo, h]
  · intro resp hresp hgv
    rcases hgv with h | h <;> simp [extractVideo, hresp, h]
  · intro resp firstVideo rest hresp hgv hbad
    rcases hbad with h | ⟨v, hv, hu⟩ <;>
      simp [extractVideo, hresp, hgv, *]
  · intro resp firstVideo rest v uri hresp hgv hfv huri hfetch
    simp [extractVideo, hresp, hgv, hfv, huri, hfetch]

/-- Auxiliary: when the first two checks report the flag unset and the
third reports it set, the poll loop stops at index 2 given at least
three checks of fuel. -/
theorem pollOps_stops_at_two (ops : Nat → Operation) (fuel : Nat)
    (h0 : (ops 0).done = false) (h1 : (ops 1).done = false)
    (h2 : (ops 2).done = true) (hfuel : 3 ≤ fuel) :
    pollOps ops fuel 0 = some 2 := by
  obtain ⟨k, rfl⟩ : ∃ k, fuel = k + 3 := ⟨fuel - 3, by omega⟩
  show pollOps ops (k + 3) 0 = some 2
  simp [pollOps, h0, h1, h2]

/-- C4: when completion is reported on the third check, `generateVideo`
performs exactly three checks (the submission result plus two re-fetches),
waits the fixed 10 seconds before each of the two re-fetches, and
returns the asset fetched from the first result's URI. -/
theorem pollerThreeChecks (ops : GenerateVideoPayload → Nat → Operation)
    (fe : FetchEnv) (fuel : Nat) (params : GenerateVideoParams)
    (payload : GenerateVideoPayload)
    (hok : buildGenerateVideoPayload params = Except.ok payload)
    (h0 : (ops payload 0).done = false) (h1 : (ops payload 1).done = false)
    (h2 : (ops payload 2).done = true) (hfuel : 3 ≤ fuel)
    (resp : OperationResponse) (firstVideo : GeneratedVideo)
    (rest : List GeneratedVideo) (v : Video) (uri : String)
    (hresp : (ops payload 2).response = some resp)
    (hgv : resp.generatedVideos = some (firstVideo :: rest))
    (hfv : firstVideo.video = some v) (huri : v.uri = some uri)
    (hfetch : (fe.fetch (fe.decodeURIComponent uri ++ "&key=" ++ fe.apiKey)).ok = true) :
    generateVideoRun ops fe fuel params =
      some (Except.ok
        { objectUrl :=
            fe.createObjectURL
              (fe.fetch (fe.decodeURIComponent uri ++ "&key=" ++ fe.apiKey)).blob,
          blob := (fe.fetch (fe.decodeURIComponent uri ++ "&key=" ++ fe.apiKey)).blob,
          uri := fe.decodeURIComponent uri, video := v },
        ⟨3, 20000, 1⟩) := by
  have hpoll := pollOps_stops_at_two (ops payload) fuel h0 h1 h2 hfuel
  simp [generateVideoRun, hok, hpoll, extractVideo, hresp, hgv, hfv, huri, hfetch]

/-- Auxiliary: one callback step of the fan-out replay. -/
theorem runCallbacks_cons (calls : List SettledCall) (i : Nat)
    (rest : List Nat) (init : List GenerationResult) :
    runCallbacks calls (i :: rest) init =
      runCallbacks calls rest
        (match calls[i]? with
          | some c => init.set i (resultOfOutcome c.outcome)
          | none => init) := rfl

/-- Auxiliary: replaying callbacks never changes the array length. -/
theorem runCallbacks_length (calls : List SettledCall) (order : List Nat)
    (init : List GenerationResult) :
    (runCallbacks calls order init).length = init.length := by
  induction order generalizing init with
  | nil => rfl
  | cons i rest ih =>
    rw [runCallbacks_cons]
    cases h : calls[i]? with
    | none => exact ih init
    | some c => rw [ih (init.set i (resultOfOutcome c.outcome)), List.length_set]

/-- Auxiliary: a slot not named by any callback keeps its initial value:
callbacks write only their own slot. -/
theorem runCallbacks_getElem_not_mem (calls : List SettledCall)
    (order : List Nat) (init : List GenerationResult) (j : Nat)
    (hj : j ∉ order) :
    (runCallbacks calls order init)[j]? = init[j]? := by
  induction order generalizing init with
  | nil => rfl
  | cons i rest ih =>
    rw [runCallbacks_cons]
    have hji : i ≠ j := fun h => hj (h ▸ List.mem_cons_self i rest)
    have hjr : j ∉ rest := fun h => hj (List.mem_cons_of_mem _ h)
    cases h : calls[i]? with
    | none => exact ih init hjr
    | some c =>
      rw [ih (init.set i (resultOfOutcome c.outcome)) hjr,
        List.getElem?_set_ne hji]

/-- Auxiliary: once a slot's own callback has run, the slot holds exactly
that call's success or error record, whatever the settlement order. -/
theorem runCallbacks_getElem_mem (calls : List SettledCall)
    (order : List Nat) (init : List GenerationResult) (j : Nat)
    (hnd : order.Nodup) (hmem : j ∈ order) (hj : j < calls.length)
    (hinit : init.length = calls.length) :
    (runCallbacks calls order init)[j]? =
      (calls[j]?).map (fun c => resultOfOutcome c.outcome) := by
  induction order generalizing init with
  | nil => cases hmem
  | cons i rest ih =>
    rw [runCallbacks_cons]
    rcases List.mem_cons.mp hmem with rfl | hmem'
    · have hjrest : j ∉ rest := (List.nodup_cons.mp hnd).1
      have hcj : calls[j]? = some calls[j] := List.getElem?_eq_getElem hj
      rw [hcj]
      rw [runCallbacks_getElem_not_mem calls rest _ j hjrest,
        List.getElem?_set_eq_of_lt _ (by rw [hinit]; exact hj)]
      rfl
    · have hnd' : rest.Nodup := (List.nodup_cons.mp hnd).2
      cases h : calls[i]? with
      | none => exact ih init hnd' hmem' hinit
      | some c =>
        exact ih (init.set i (resultOfOutcome c.outcome)) hnd' hmem'
          (by rw [List.length_set]; exact hinit)

/-- Auxiliary: for any settlement order that is a permutation of the slot
indices, the final status array is the per-slot image of the outcomes —
slot-index partitioning makes the result order-independent. -/
theorem handleGenerateFinal_eq_map (calls : List SettledCall)
    (order : List Nat) (hperm : order.Perm (List.range calls.length)) :
    handleGenerateFinal calls order =
      calls.map (fun c => resultOfOutcome c.outcome) := by
  have hnd : order.Nodup := hperm.nodup_iff.mpr (List.nodup_range _)
  apply List.ext_getElem?
  intro j
  by_cases hj : j < calls.length
  · have hmem : j ∈ order := hperm.mem_iff.mpr (List.mem_range.mpr hj)
    rw [handleGenerateFinal,
      runCallbacks_getElem_mem calls order _ j hnd hmem hj (by simp)]
    rw [List.getElem?_map]
  · have h1 : (handleGenerateFinal calls order)[j]? = none := by
      apply List.getElem?_eq_none
      rw [handleGenerateFinal, runCallbacks_length, List.length_replicate]
      omega
    have h2 : (calls.map (fun c => resultOfOutcome c.outcome))[j]? = none := by
      apply List.getElem?_eq_none
      rw [List.length_map]
      omega
    rw [h1, h2]

/-- C2: with four fan-out calls of which exactly slot 2 fails, whatever
order the calls settle in, the final status array has length 4, slot 2
in the error state carrying the failure's message and the other three
slots in the success state carrying their assets; the batch settles only
at the latest of the four settle times, so the failure neither cancels
nor delays the successful slots. -/
theorem fanOutPartialFailure (a b c : ImageFile) (e : JsThrown)
    (t0 t1 t2 t3 : Nat) (order : List Nat)
    (hperm : order.Perm (List.range 4)) :
    handleGenerateFinal
        [⟨t0, Except.ok a⟩, ⟨t1, Except.ok b⟩, ⟨t2, Except.error e⟩,
          ⟨t3, Except.ok c⟩] order =
      [GenerationResult.success a, GenerationResult.success b,
        GenerationResult.error (messageOf e), GenerationResult.success c] ∧
    (handleGenerateFinal
        [⟨t0, Except.ok a⟩, ⟨t1, Except.ok b⟩, ⟨t2, Except.error e⟩,
          ⟨t3, Except.ok c⟩] order).length = 4 ∧
    allSettleTime
        [⟨t0, Except.ok a⟩, ⟨t1, Except.ok b⟩, ⟨t2, Except.error e⟩,
          ⟨t3, Except.ok c⟩] = max t0 (max t1 (max t2 t3)) := by
  have h := handleGenerateFinal_eq_map
    [⟨t0, Except.ok a⟩, ⟨t1, Except.ok b⟩, ⟨t2, Except.error e⟩,
      ⟨t3, Except.ok c⟩] order hperm
  refine ⟨?_, ?_, ?_⟩
  · rw [h]
    rfl
  · rw [h]
    rfl
  · simp [allSettleTime]

/-- C9: any slot of the live-status fan-out whose call rejects with a
thrown value that is not an `Error` (so carries no message) ends in the
error state with the generic default message. -/
theorem errorMessageDefaults (calls : List SettledCall) (order : List Nat)
    (i : Nat) (hperm : order.Perm (List.range calls.length))
    (hi : i < calls.length)
    (he : (calls.get ⟨i, hi⟩).outcome = Except.error JsThrown.nonError) :
    (handleGenerateFinal calls order)[i]? =
      some (GenerationResult.error "An unknown error occurred.") := by
  rw [handleGenerateFinal_eq_map calls order hperm, List.getElem?_map,
    List.getElem?_eq_getElem hi]
  have : resultOfOutcome (calls.get ⟨i, hi⟩).outcome =
      GenerationResult.error "An unknown error occurred." := by
    rw [he]
    rfl
  simpa using this

/-- C1 fails as stated: `generateImages` awaits `Promise.all`, so with one
call failing at time 1 while the other settles at time 5, the aggregate
settles at time 1 with the failure instead of settling at the batch's
last settle time with the successful assets. -/
theorem simpleVariantCounterexample :
    generateImagesRun
        [⟨5, Except.ok [⟨some "QUJD"⟩]⟩,
          ⟨1, Except.error (JsThrown.errorInstance "boom")⟩] ≠
      (allSettleTime (settledCallsOf
          [⟨5, Except.ok [⟨some "QUJD"⟩]⟩,
            ⟨1, Except.error (JsThrown.errorInstance "boom")⟩]),
        Except.ok (successAssets (settledCallsOf
          [⟨5, Except.ok [⟨some "QUJD"⟩]⟩,
            ⟨1, Except.error (JsThrown.errorInstance "boom")⟩]))) := by
  decide

/-- C1 amended: `generateImages` settles after all N calls and returns
the successful assets only when every call succeeds; as soon as any call
fails, it settles at the earliest rejection with that failure, without
waiting for the remaining calls (which are themselves neither cancelled
nor blocked). -/
theorem simpleVariantSettlement (env : List GenCall) :
    ((∀ s ∈ settledCallsOf env, s.outcome.toOption.isSome = true) →
      generateImagesRun env =
        (allSettleTime (settledCallsOf env),
          Except.ok (successAssets (settledCallsOf env)))) ∧
    (∀ t e, earliestRejection (rejections (settledCallsOf env)) = some (t, e) →
      generateImagesRun env = (t, Except.error e)) := by
  constructor
  · intro hall
    have hrej : rejections (settledCallsOf env) = [] := by
      simp only [rejections, List.filterMap_eq_nil_iff]
      intro s hs
      have := hall s hs
      cases h : s.outcome with
      | ok f => rfl
      | error e => rw [h] at this; simp [Except.toOption] at this
    simp only [generateImagesRun, promiseAll, hrej, earliestRejection]
  · intro t e hearliest
    simp only [generateImagesRun, promiseAll, hearliest]

/-- Witness for C3 at a concrete EXTEND_VIDEO request with no source
video handle. -/
theorem extendWithoutVideoFailsBeforeNetwork_witness :
    generateVideoRun (fun _ _ => ⟨true, none⟩)
      ⟨"KEY", fun _ => ⟨200, "OK", "BLOB"⟩, fun s => s, fun b => b⟩ 5
      { mode := GenerationMode.EXTEND_VIDEO, prompt := "a cat",
        aspectRatio := "16:9", resolution := "720p", model := "veo",
        startFrame := none, endFrame := none, isLooping := false,
        referenceImages := none, styleImage := none,
        inputVideoObject := none } =
      some (Except.error "An input video object is required to extend a video.",
        ⟨0, 0, 0⟩) :=
  extendWithoutVideoFailsBeforeNetwork _ _ 5 _ rfl rfl

/-- Witness for C8: at the maximum of 2 a third selection is refused,
and deselecting index 1 shrinks the selection to `[0]`. -/
theorem gallerySelectionCap_witness :
    toggleSelection 2 [0, 1] 2 = [0, 1] ∧ toggleSelection 2 [0, 1] 1 = [0] := by
  constructor
  · exact (gallerySelectionCap 2 [0, 1] 2).1 rfl (by decide)
  · have h := ((gallerySelectionCap 2 [0, 1] 1).2.1 (by decide)).1
    rw [h]
    decide

/-- Witness for C10: toggling the error slot of a two-slot result leaves
the empty selection unchanged, and toggling the success slot preserves
the selection invariant. -/
theorem liveSelectionInvariant_witness :
    toggleSelectionLive
        [GenerationResult.success (base64ToImageFile "QUJD" 0),
          GenerationResult.error "boom"] 2 [] 1 = [] ∧
    SelInvariant
        [GenerationResult.success (base64ToImageFile "QUJD" 0),
          GenerationResult.error "boom"] 2
        (toggleSelectionLive
          [GenerationResult.success (base64ToImageFile "QUJD" 0),
            GenerationResult.error "boom"] 2 [] 0) := by
  constructor
  · exact (liveSelectionInvariant _ 2 [] 1).1 (by decide)
  · exact (liveSelectionInvariant _ 2 [] 0).2 ⟨by simp, by simp⟩

/-- Witness for C7: a concrete TEXT_TO_VIDEO build carries the supplied
aspect ratio. -/
theorem aspectRatioByMode_witness :
    ({ model := "veo",
        config := {
          numberOfVideos := 1, resolution := "720p",
          aspectRatio := some "16:9", lastFrame := none,
          referenceImages := none },
        prompt := some "a cat", image := none,
        video := none } : GenerateVideoPayload).config.aspectRatio =
      some "16:9" :=
  (aspectRatioByMode
    { mode := GenerationMode.TEXT_TO_VIDEO, prompt := "a cat",
      aspectRatio := "16:9", resolution := "720p", model := "veo",
      startFrame := none, endFrame := none, isLooping := false,
      referenceImages := none, styleImage := none, inputVideoObject := none }
    ({ model := "veo",
        config := {
          numberOfVideos := 1, resolution := "720p",
          aspectRatio := some "16:9", lastFrame := none,
          referenceImages := none },
        prompt := some "a cat", image := none,
        video := none } : GenerateVideoPayload) (by decide)).2 (by decide)

/-- Witness for C6: a concrete looping FRAMES_TO_VIDEO build with only a
start frame gets that frame as its `lastFrame`. -/
theorem framesLastFrame_witness :
    ({ model := "veo",
        config := {
          numberOfVideos := 1, resolution := "720p",
          aspectRatio := some "16:9",
          lastFrame := some (imagePayloadOf ⟨"QUJD", "image/png", "s.png"⟩),
          referenceImages := none },
        prompt := some "a cat",
        image := some (imagePayloadOf ⟨"QUJD", "image/png", "s.png"⟩),
        video := none } : GenerateVideoPayload).config.lastFrame =
      some (imagePayloadOf ⟨"QUJD", "image/png", "s.png"⟩) :=
  (framesLastFrame
    { mode := GenerationMode.FRAMES_TO_VIDEO, prompt := "a cat",
      aspectRatio := "16:9", resolution := "720p", model := "veo",
      startFrame := some ⟨"QUJD", "image/png", "s.png"⟩, endFrame := none,
      isLooping := true, referenceImages := none, styleImage := none,
      inputVideoObject := none }
    ({ model := "veo",
        config := {
          numberOfVideos := 1, resolution := "720p",
          aspectRatio := some "16:9",
          lastFrame := some (imagePayloadOf ⟨"QUJD", "image/png", "s.png"⟩),
          referenceImages := none },
        prompt := some "a cat",
        image := some (imagePayloadOf ⟨"QUJD", "image/png", "s.png"⟩),
        video := none } : GenerateVideoPayload) rfl (by decide)).1
    ⟨"QUJD", "image/png", "s.png"⟩ rfl rfl rfl

/-- Witness for C5: a completed operation with no response yields the
fatal "No videos generated." error, and a 404 on the asset fetch yields
the fatal error naming the code and reason. -/
theorem terminalValidationAndFetch_witness :
    extractVideo ⟨"KEY", fun _ => ⟨404, "Not Found", ""⟩, fun s => s, fun b => b⟩
        ⟨true, none⟩ = (Except.error "No videos generated.", 0) ∧
    extractVideo ⟨"KEY", fun _ => ⟨404, "Not Found", ""⟩, fun s => s, fun b => b⟩
        ⟨true, some ⟨some [⟨some ⟨some "u"⟩⟩]⟩⟩ =
      (Except.error "Failed to fetch video: 404 Not Found", 1) := by
  constructor
  · exact (terminalValidationAndFetch _ ⟨true, none⟩).2.1 rfl
  · have h := (terminalValidationAndFetch
        ⟨"KEY", fun _ => ⟨404, "Not Found", ""⟩, fun s => s, fun b => b⟩
        ⟨true, some ⟨some [⟨some ⟨some "u"⟩⟩]⟩⟩).2.2.2.2
      ⟨some [⟨some ⟨some "u"⟩⟩]⟩ ⟨some ⟨some "u"⟩⟩ [] ⟨some "u"⟩ "u"
      rfl rfl rfl rfl (by decide)
    rw [h]
    decide

/-- Witness for C4: an operation trace that completes on the third check
makes the run stop after 3 checks, 20 seconds of waiting and one
successful asset fetch. -/
theorem pollerThreeChecks_witness :
    generateVideoRun
        (fun _ k => if k < 2 then ⟨false, none⟩
          else ⟨true, some ⟨some [⟨some ⟨some "u"⟩⟩]⟩⟩)
        ⟨"KEY", fun _ => ⟨200, "OK", "BLOB"⟩, fun s => s, fun b => b⟩ 5
        { mode := GenerationMode.TEXT_TO_VIDEO, prompt := "a cat",
          aspectRatio := "16:9", resolution := "720p", model := "veo",
          startFrame := none, endFrame := none, isLooping := false,
          referenceImages := none, styleImage := none,
          inputVideoObject := none } =
      some (Except.ok
        { objectUrl := "BLOB", blob := "BLOB", uri := "u",
          video := ⟨some "u"⟩ },
        ⟨3, 20000, 1⟩) :=
  pollerThreeChecks
    (fun _ k => if k < 2 then ⟨false, none⟩
      else ⟨true, some ⟨some [⟨some ⟨some "u"⟩⟩]⟩⟩)
    ⟨"KEY", fun _ => ⟨200, "OK", "BLOB"⟩, fun s => s, fun b => b⟩ 5
    { mode := GenerationMode.TEXT_TO_VIDEO, prompt := "a cat",
      aspectRatio := "16:9", resolution := "720p", model := "veo",
      startFrame := none, endFrame := none, isLooping := false,
      referenceImages := none, styleImage := none, inputVideoObject := none }
    ({ model := "veo",
        config := {
          numberOfVideos := 1, resolution := "720p",
          aspectRatio := some "16:9", lastFrame := none,
          referenceImages := none },
        prompt := some "a cat", image := none,
        video := none } : GenerateVideoPayload)
    (by decide) rfl rfl rfl (by decide)
    ⟨some [⟨some ⟨some "u"⟩⟩]⟩ ⟨some ⟨some "u"⟩⟩ [] ⟨some "u"⟩ "u"
    rfl rfl rfl rfl (by decide)

/-- Witness for C2: four concrete calls settling in order
`[2, 0, 3, 1]`, slot 2 failing, produce the expected status array. -/
theorem fanOutPartialFailure_witness :
    handleGenerateFinal
        [⟨4, Except.ok (base64ToImageFile "QQ" 0)⟩,
          ⟨2, Except.ok (base64ToImageFile "Qg" 1)⟩,
          ⟨1, Except.error (JsThrown.errorInstance "boom")⟩,
          ⟨9, Except.ok (base64ToImageFile "Qw" 3)⟩] [2, 0, 3, 1] =
      [GenerationResult.success (base64ToImageFile "QQ" 0),
        GenerationResult.success (base64ToImageFile "Qg" 1),
        GenerationResult.error "boom",
        GenerationResult.success (base64ToImageFile "Qw" 3)] := by
  have h := fanOutPartialFailure (base64ToImageFile "QQ" 0)
    (base64ToImageFile "Qg" 1) (base64ToImageFile "Qw" 3)
    (JsThrown.errorInstance "boom") 4 2 1 9 [2, 0, 3, 1] (by decide)
  rw [h.1]
  rfl

/-- Witness for C9: a slot failing with a non-`Error` thrown value gets
the generic default message. -/
theorem errorMessageDefaults_witness :
    (handleGenerateFinal
        [⟨3, Except.ok (base64ToImageFile "QQ" 0)⟩,
          ⟨1, Except.error JsThrown.nonError⟩] [1, 0])[1]? =
      some (GenerationResult.error "An unknown error occurred.") :=
  errorMessageDefaults _ [1, 0] 1 (by decide) (by decide) rfl

/-- Witness for C1 (amended): a single all-successful call makes
`generateImages` settle at that call's time with its asset. -/
theorem simpleVariantSettlement_witness :
    generateImagesRun [⟨7, Except.ok [⟨some "QUJD"⟩]⟩] =
      (7, Except.ok [base64ToImageFile "QUJD" 0]) := by
  have h := (simpleVariantSettlement [⟨7, Except.ok [⟨some "QUJD"⟩]⟩]).1
    (by decide)
  rw [h]
  rfl

end V3O
